import Mathlib

/-!
# Verification of the Shutorary simulation core (src/main.go)

Shallow embedding of the frame-simulation engine of `main.go`.
Conventions used throughout:

* `float32`/`float64` quantities (positions, timers, cooldowns) are embedded
  as exact rationals `ℚ`; float arithmetic is idealized as exact.
* Go `int` counters that are non-negative in every reachable state
  (`score`, `highScore`, `level`, `enemiesKilled`) are embedded as `Nat`
  (Go `/` and `%` agree with `Nat` division on these values); `health`,
  which can go negative, is embedded as `Int`.
* `math.Sqrt` appears only in two roles: inside comparisons
  (`sqrt d < c` with `c ≥ 0`, embedded exactly as `d < c^2`), and as a
  normalizing factor for velocity/knockback vectors, where it is passed in
  as an explicit oracle `sqrtQ : ℚ → ℚ` (the claims proved here never
  depend on its value).
* `math/rand` draws are passed in as explicit streams (`Nat → _`), so all
  definitions are deterministic functions of state plus the random stream.
* Trigonometric placements (`cos`, `sin`) are likewise passed in as
  explicit oracles (a random candidate position is taken directly, a shot
  direction is an oracle of the angle in degrees).
* Purely cosmetic state that no modelled claim observes — particles,
  power-up pool contents, audio cues, camera, menu cursors, 3D models —
  is omitted from the game record; every gameplay-visible field of the
  source `Game` struct is present.
-/

namespace Shutorary

/-- The `GameState` enum of `main.go`. -/
inductive GameState where
  | StateMenu
  | StateSettings
  | StatePlaying
  | StatePaused
  | StateUpgrade
  | StateGameOver
deriving DecidableEq, Repr

/-- The `StageType` enum of `main.go`. -/
inductive StageType where
  | StageBasic
  | StageMaze
  | StageHazard
  | StageArena
deriving DecidableEq, Repr

/-- `StageType(n)` for `n = stageNum % 4` (source `GenerateStage`). -/
def stageTypeOfNat (n : Nat) : StageType :=
  match n with
  | 0 => .StageBasic
  | 1 => .StageMaze
  | 2 => .StageHazard
  | _ => .StageArena

/-- Ground-plane point: the X and Z components of an `rl.Vector3`.  The Y
(height) component participates in no gameplay computation modelled here
(the source collision and distance tests read only X and Z). -/
structure Vec2 where
  x : ℚ
  z : ℚ
deriving DecidableEq, Repr

/-- The `Obstacle` struct (position and size restricted to the ground-plane
components actually read by collision code; `obsType`: 0=wall, 1=hazard). -/
structure Obstacle where
  position : Vec2
  sizeX : ℚ
  sizeZ : ℚ
  active : Bool
  obsType : Nat
deriving DecidableEq, Repr

/-- The per-obstacle test inside `CheckObstacleCollision` (main.go:679-682):
`pos.X+radius > obs.position.X-obs.size.X/2 && pos.X-radius < obs.position.X+obs.size.X/2`
and the same on Z. -/
def obstacleHit (pos : Vec2) (radius : ℚ) (obs : Obstacle) : Bool :=
  decide (obs.position.x - obs.sizeX / 2 < pos.x + radius) &&
  decide (pos.x - radius < obs.position.x + obs.sizeX / 2) &&
  decide (obs.position.z - obs.sizeZ / 2 < pos.z + radius) &&
  decide (pos.z - radius < obs.position.z + obs.sizeZ / 2)

/-- `CheckObstacleCollision` (main.go:671-687): linear scan over the obstacle
pool, skipping inactive slots, returning true at the first slot whose AABB
test fires. -/
def CheckObstacleCollision (obstacles : List Obstacle) (pos : Vec2) (radius : ℚ) : Bool :=
  match obstacles with
  | [] => false
  | o :: rest =>
    if o.active then
      if obstacleHit pos radius o then true
      else CheckObstacleCollision rest pos radius
    else CheckObstacleCollision rest pos radius

/-- Modelled from the spec: the claim C2 reads the per-obstacle test as "the
circle of the given radius centered at pos intersects the axis-aligned
rectangle `size.X × size.Z` centered at the obstacle's position".  This is
the standard circle/rectangle intersection: the distance from the center to
the closest point of the rectangle is at most the radius.  It exists only to
be compared against `obstacleHit`, the test the source actually performs. -/
def circleRectOverlap (pos : Vec2) (radius : ℚ) (obs : Obstacle) : Bool :=
  let cx := max (obs.position.x - obs.sizeX / 2) (min pos.x (obs.position.x + obs.sizeX / 2))
  let cz := max (obs.position.z - obs.sizeZ / 2) (min pos.z (obs.position.z + obs.sizeZ / 2))
  decide ((pos.x - cx) ^ 2 + (pos.z - cz) ^ 2 ≤ radius ^ 2)

/-- The constants of `main.go` (lines 150-159). -/
def maxEnemies : Nat := 80
def maxBullets : Nat := 20
def maxPowerUps : Nat := 5
def maxObstacles : Nat := 30
def stageInterval : Nat := 10

/-- The stage-archetype computation of `GenerateStage` (main.go:580-581):
`stageNum := (level - 1) / stageInterval; currentStage = StageType(stageNum % 4)`. -/
def stageTypeOfLevel (level : Nat) : StageType :=
  stageTypeOfNat ((level - 1) / stageInterval % 4)

/-- The `Skill` struct of `main.go`. -/
structure Skill where
  name : String
  cooldown : ℚ
  maxCooldown : ℚ
  ready : Bool
deriving DecidableEq, Repr

/-- The `PlayerStats` struct of `main.go`. -/
structure PlayerStats where
  maxHealth : Int
  damage : Int
  speed : ℚ
  fireRate : ℚ
  critChance : ℚ
  statPoints : Int
deriving DecidableEq, Repr

/-- The gameplay-visible fields of the `Player` struct (cosmetic fields —
model, bobbing, tilt animation — omitted; `lastShot` and `angle` are kept
because shooting logic reads them). -/
structure PlayerE where
  position : Vec2
  angle : ℚ
  health : Int
  stats : PlayerStats
  lastShot : ℚ
  skills : List Skill
  id : Nat
deriving DecidableEq, Repr

/-- The gameplay-visible fields of the `Enemy` struct (color/model fields
omitted). -/
structure EnemyE where
  position : Vec2
  velocity : Vec2
  active : Bool
  health : Int
  maxHealth : Int
  size : ℚ
  isBoss : Bool
deriving DecidableEq, Repr

/-- The `Bullet` struct of `main.go`. -/
structure BulletE where
  position : Vec2
  velocity : Vec2
  active : Bool
  damage : Int
  playerId : Nat
deriving DecidableEq, Repr

/-- The gameplay-visible fields of the `Game` struct (audio, camera, menu
cursors, particle and power-up pools, settings and model handles omitted:
no modelled claim observes them). -/
structure Game where
  state : GameState
  players : List PlayerE
  enemies : List EnemyE
  bullets : List BulletE
  obstacles : List Obstacle
  score : Nat
  highScore : Nat
  level : Nat
  spawnTimer : ℚ
  spawnInterval : ℚ
  enemiesKilled : Nat
  gameTime : ℚ
  bossActive : Bool
  bossSpawned : Bool
  coopMode : Bool
  currentStage : StageType
deriving DecidableEq, Repr

/-- The three skills built by `createPlayer` (main.go:341-345). -/
def createSkills : List Skill :=
  [ { name := "Explosion", cooldown := 0, maxCooldown := 8, ready := true },
    { name := "Radial Shot", cooldown := 0, maxCooldown := 10, ready := true },
    { name := "Energy Shield", cooldown := 0, maxCooldown := 15, ready := true } ]

/-- The stats block of `createPlayer` / `ResetGame` (main.go:332-339, 510-517). -/
def basePlayerStats : PlayerStats :=
  { maxHealth := 100, damage := 1, speed := 12, fireRate := 3/20,
    critChance := 1/20, statPoints := 0 }

/-- `createPlayer` (main.go:331-380), gameplay-visible fields. -/
def createPlayer (id : Nat) (pos : Vec2) : PlayerE :=
  { position := pos, angle := 0, health := basePlayerStats.maxHealth,
    stats := basePlayerStats, lastShot := 0, skills := createSkills, id := id }

/-- The default player value used only for the (unreachable in the source)
lookup of a random target player in an empty player list. -/
def defaultPlayer : PlayerE := createPlayer 0 ⟨0, 0⟩

/-- The skill-slot invariant stated by the spec: `cooldown ∈ [0, maxCooldown]`
and `ready == (cooldown == 0)`. -/
def skillInv (s : Skill) : Prop :=
  0 ≤ s.cooldown ∧ s.cooldown ≤ s.maxCooldown ∧ (s.ready = true ↔ s.cooldown = 0)

instance (s : Skill) : Decidable (skillInv s) := by
  unfold skillInv; infer_instance

/-- The per-skill cooldown update of one tick (main.go:1150-1159):
while not ready, `cooldown -= dt`; on reaching `≤ 0`, flip `ready` and clamp
the cooldown to 0. -/
def skillTick (s : Skill) (dt : ℚ) : Skill :=
  if s.ready then s
  else
    let c := s.cooldown - dt
    if c ≤ 0 then { s with ready := true, cooldown := 0 }
    else { s with cooldown := c }

/-- The activation epilogue of `UseSkill` (main.go:915-916):
`ready = false; cooldown = maxCooldown`. -/
def skillActivate (s : Skill) : Skill :=
  { s with ready := false, cooldown := s.maxCooldown }

/-- The skill reset of `ResetGame` (main.go:521-524): `cooldown = 0; ready = true`. -/
def resetSkill (s : Skill) : Skill :=
  { s with cooldown := 0, ready := true }

/-- `GenerateMaze` (main.go:593-621): five long vertical walls at
X = -20,-10,0,10,20 (size 2×15 in the ground plane) followed by four long
horizontal walls at Z = -15,-5,5,15 (size 15×2), written into the first
pool slots; deterministic. -/
def mazeObstacles : List Obstacle :=
  ([-20, -10, 0, 10, 20] : List ℚ).map
    (fun i => { position := ⟨i, 0⟩, sizeX := 2, sizeZ := 15, active := true, obsType := 0 }) ++
  ([-15, -5, 5, 15] : List ℚ).map
    (fun i => { position := ⟨0, i⟩, sizeX := 15, sizeZ := 2, active := true, obsType := 0 })

/-- `GenerateArena` (main.go:644-669): four boundary walls (north, south,
west, east) inset at ±18; deterministic. -/
def arenaObstacles : List Obstacle :=
  [ { position := ⟨0, -18⟩, sizeX := 30, sizeZ := 2, active := true, obsType := 0 },
    { position := ⟨0, 18⟩, sizeX := 30, sizeZ := 2, active := true, obsType := 0 },
    { position := ⟨-18, 0⟩, sizeX := 2, sizeZ := 30, active := true, obsType := 0 },
    { position := ⟨18, 0⟩, sizeX := 2, sizeZ := 30, active := true, obsType := 0 } ]

/-- `GenerateHazards` (main.go:623-642): ten 3×3 hazard-kind obstacles at
random positions `(cos(angle)*d, sin(angle)*d)`, `d ∈ [10,20)`; the random
placement stream `hz` supplies the positions. -/
def hazardObstacles (hz : Nat → Vec2) : List Obstacle :=
  (List.range 10).map
    (fun k => { position := hz k, sizeX := 3, sizeZ := 3, active := true, obsType := 1 })

/-- The obstacle list produced by the `GenerateStage` dispatch for each
stage archetype (`StageBasic` generates nothing). -/
def stageObstaclesFor (hz : Nat → Vec2) : StageType → List Obstacle
  | .StageBasic => []
  | .StageMaze => mazeObstacles
  | .StageHazard => hazardObstacles hz
  | .StageArena => arenaObstacles

/-- Helper for the generators' pool writes: new obstacles are written into
the leading pool slots (`obsIndex` starting at 0), stopping when the pool is
exhausted (`obsIndex >= maxObstacles` breaks — here: when the pool list runs
out). -/
def writePool (pool newObs : List Obstacle) : List Obstacle :=
  match pool, newObs with
  | [], _ => []
  | p :: ps, [] => p :: ps
  | _ :: ps, n :: ns => n :: writePool ps ns

/-- `GenerateStage` (main.go:573-591): deactivate every obstacle slot, set
`currentStage = StageType((level-1)/stageInterval % 4)`, then dispatch the
archetype generator. -/
def GenerateStage (hz : Nat → Vec2) (g : Game) : Game :=
  let cleared := g.obstacles.map (fun o => { o with active := false })
  let stage := stageTypeOfLevel g.level
  { g with currentStage := stage,
           obstacles := writePool cleared (stageObstaclesFor hz stage) }

/-- `KillEnemy` (main.go:919-960).  Deactivate the enemy at `index`;
boss branch: +500 score, clear boss flags, `level++`, stage regeneration
when `level % stageInterval == 1`, upgrade gate when `level % 3 == 1 && level > 1`;
non-boss branch: `+10*level` score.  Then `enemiesKilled++`; for a non-boss
kill with `enemiesKilled % 20 == 0 && level % 10 != 0`: `level++`, recompute
`spawnInterval = max(0.5, 1.5 - level*0.05)`, and the same stage/upgrade
checks.  The particle burst (`CreateExplosion`) and the probabilistic
power-up drop (`SpawnPowerUp`) touch only pools omitted from the model;
sounds are cosmetic.  `hz` is the random stream for a triggered `GenerateStage`. -/
def KillEnemy (hz : Nat → Vec2) (g : Game) (index : Nat) : Game :=
  match g.enemies[index]? with
  | none => g
  | some e =>
    let g1 := { g with enemies := g.enemies.set index { e with active := false } }
    let g2 :=
      if e.isBoss then
        let ga := { g1 with score := g1.score + 500, bossActive := false,
                            level := g1.level + 1, bossSpawned := false }
        let gb := if ga.level % stageInterval = 1 then GenerateStage hz ga else ga
        if gb.level % 3 = 1 ∧ 1 < gb.level then { gb with state := .StateUpgrade } else gb
      else { g1 with score := g1.score + 10 * g1.level }
    let g3 := { g2 with enemiesKilled := g2.enemiesKilled + 1 }
    if !e.isBoss && (g3.enemiesKilled % 20 == 0) && (g3.level % 10 != 0) then
      let ga := { g3 with level := g3.level + 1 }
      let gb := { ga with spawnInterval := max (1/2 : ℚ) (3/2 - (ga.level : ℚ) * (1/20)) }
      let gc := if gb.level % stageInterval = 1 then GenerateStage hz gb else gb
      if gc.level % 3 = 1 ∧ 1 < gc.level then { gc with state := .StateUpgrade } else gc
    else g3

/-- The capped 30-point heal used both by the Energy Shield skill
(main.go:908-910) and by the heal pickup (main.go:1529-1530):
`health = int(min(health+30, maxHealth))`. -/
def healCap (p : PlayerE) : PlayerE :=
  { p with health := min (p.health + 30) p.stats.maxHealth }

/-- `ApplyUpgrade` applied to one player's record (main.go:721-739, loop
body): 0 = +20 max health and refill, 1 = +1 damage, 2 = +2 speed,
3 = fire-rate floor at 0.05, 4 = crit-chance cap at 0.5; any other choice
changes nothing (empty `switch` default). -/
def applyUpgradeStats (choice : Nat) (p : PlayerE) : PlayerE :=
  match choice with
  | 0 => let st := { p.stats with maxHealth := p.stats.maxHealth + 20 }
         { p with stats := st, health := st.maxHealth }
  | 1 => { p with stats := { p.stats with damage := p.stats.damage + 1 } }
  | 2 => { p with stats := { p.stats with speed := p.stats.speed + 2 } }
  | 3 => { p with stats := { p.stats with fireRate := max (p.stats.fireRate - 1/50) (1/20) } }
  | 4 => { p with stats := { p.stats with critChance := min (p.stats.critChance + 1/20) (1/2) } }
  | _ => p

/-- `ApplyUpgrade` (main.go:721-739): every player receives the chosen stat
change, then the state returns to Playing. -/
def ApplyUpgrade (g : Game) (choice : Nat) : Game :=
  { g with players := g.players.map (applyUpgradeStats choice),
           state := .StatePlaying }

/-- The enemy-player contact resolution of `Update` (main.go:1443-1477) for
one (enemy, player) pair: collision radius 1.5 (3.0 for a boss, compared
against the planar distance — embedded exactly as squared distance against
squared radius); on contact, fixed 20 damage (30 for a boss), a 3-unit
knockback of the enemy along the contact normal (the normalization by the
distance uses the `sqrtQ` oracle; the `playerDist > 0` guard is exactly
`dx^2+dz^2 > 0`), and a transition to GameOver with the high-score check
when the player's health has reached 0 or below.  The inactive-slot guard
of the enclosing enemy loop (main.go:1363) is included. -/
def resolvePlayerContact (sqrtQ : ℚ → ℚ) (g : Game) (eIdx pIdx : Nat) : Game :=
  match g.enemies[eIdx]?, g.players[pIdx]? with
  | some e, some p =>
    if e.active then
      let dx := p.position.x - e.position.x
      let dz := p.position.z - e.position.z
      let collisionDist : ℚ := if e.isBoss then 3 else 3/2
      if dx ^ 2 + dz ^ 2 < collisionDist ^ 2 then
        let damage : Int := if e.isBoss then 30 else 20
        let p1 := { p with health := p.health - damage }
        let e1 :=
          if 0 < dx ^ 2 + dz ^ 2 then
            let d := sqrtQ (dx ^ 2 + dz ^ 2)
            { e with position :=
                ⟨e.position.x + (e.position.x - p.position.x) / d * 3,
                 e.position.z + (e.position.z - p.position.z) / d * 3⟩ }
          else e
        let g1 := { g with players := g.players.set pIdx p1,
                           enemies := g.enemies.set eIdx e1 }
        if p1.health ≤ 0 then
          { g1 with state := .StateGameOver,
                    highScore := if g1.highScore < g1.score then g1.score else g1.highScore }
        else g1
      else g
    else g
  | _, _ => g

/-- One random draw consumed by a `SpawnEnemy` slot attempt: the candidate
position (the image of the random angle and the random radial distance in
`[25,30)`), the random target-player index, the random speed magnitude
summand and the random size (main.go:780-801). -/
structure SpawnDraw where
  pos : Vec2
  targetIdx : Nat
  speed : ℚ
  size : ℚ

/-- The enemy record built by a successful `SpawnEnemy` attempt
(main.go:794-819): velocity points at the randomly chosen player, with
magnitude `speed` (the normalizing planar distance comes from the `sqrtQ`
oracle); health `1 + (level-1)/3`. -/
def mkSpawnedEnemy (sqrtQ : ℚ → ℚ) (players : List PlayerE) (level : Nat)
    (d : SpawnDraw) : EnemyE :=
  let target := (players[d.targetIdx % players.length]?).getD defaultPlayer
  let dx := target.position.x - d.pos.x
  let dz := target.position.z - d.pos.z
  let dist := sqrtQ (dx ^ 2 + dz ^ 2)
  let hp : Int := (1 + (level - 1) / 3 : Nat)
  { position := d.pos,
    velocity := ⟨dx / dist * d.speed, dz / dist * d.speed⟩,
    active := true, health := hp, maxHealth := hp, size := d.size,
    isBoss := false }

/-- The slot loop of `SpawnEnemy` (main.go:777-823): scan for an inactive
slot; each inactive slot consumes one random draw; if the candidate
position overlaps an obstacle at test radius 1.0 the loop `continue`s to
the next slot (consuming a fresh draw there); otherwise the slot is filled
and the loop breaks.  `k` counts the draws consumed so far. -/
def spawnEnemyGo (sqrtQ : ℚ → ℚ) (obstacles : List Obstacle)
    (players : List PlayerE) (level : Nat) (draws : Nat → SpawnDraw) :
    List EnemyE → Nat → List EnemyE
  | [], _ => []
  | e :: rest, k =>
    if e.active then e :: spawnEnemyGo sqrtQ obstacles players level draws rest k
    else
      let d := draws k
      if CheckObstacleCollision obstacles d.pos 1 then
        e :: spawnEnemyGo sqrtQ obstacles players level draws rest (k + 1)
      else mkSpawnedEnemy sqrtQ players level d :: rest

/-- `SpawnEnemy` (main.go:777-823). -/
def SpawnEnemy (sqrtQ : ℚ → ℚ) (draws : Nat → SpawnDraw) (g : Game) : Game :=
  { g with enemies := spawnEnemyGo sqrtQ g.obstacles g.players g.level draws g.enemies 0 }

/-- Count of active non-boss enemies (the population-cap count of
main.go:1349-1354). -/
def countActiveNonBoss (es : List EnemyE) : Nat :=
  (es.filter (fun e => e.active && !e.isBoss)).length

/-- Count of active enemies. -/
def countActive (es : List EnemyE) : Nat :=
  (es.filter (fun e => e.active)).length

/-- Count of inactive (free) enemy slots. -/
def countInactive (es : List EnemyE) : Nat :=
  (es.filter (fun e => !e.active)).length

/-- The regular spawn controller of `Update` (main.go:1344-1359): only when
no boss is active, accumulate `dt` into the spawn timer; when the timer
exceeds `spawnInterval`, reset it and spawn one enemy if the active
non-boss count is below the level-scaled cap `10 + level*2`. -/
def spawnControllerStep (sqrtQ : ℚ → ℚ) (draws : Nat → SpawnDraw)
    (g : Game) (dt : ℚ) : Game :=
  if g.bossActive then g
  else
    let g1 := { g with spawnTimer := g.spawnTimer + dt }
    if g1.spawnTimer > g1.spawnInterval then
      let g2 := { g1 with spawnTimer := 0 }
      if countActiveNonBoss g2.enemies < 10 + g2.level * 2 then
        SpawnEnemy sqrtQ draws g2
      else g2
    else g1

/-- One iteration of the Explosion skill's enemy loop (main.go:863-882) for
the caster snapshot `player`: an active enemy within planar distance 10
(embedded exactly as squared distance `< 100`) takes `3×damage`
(`10×damage` for a boss); death triggers `KillEnemy`. -/
def explosionStep (hz : Nat → Vec2) (player : PlayerE) (g : Game) (i : Nat) : Game :=
  match g.enemies[i]? with
  | none => g
  | some e =>
    if e.active then
      let dx := e.position.x - player.position.x
      let dz := e.position.z - player.position.z
      if dx ^ 2 + dz ^ 2 < 100 then
        let damage : Int :=
          if e.isBoss then 10 * player.stats.damage else 3 * player.stats.damage
        let e1 := { e with health := e.health - damage }
        let g1 := { g with enemies := g.enemies.set i e1 }
        if e1.health ≤ 0 then KillEnemy hz g1 i else g1
      else g
    else g

/-- First-free-slot bullet write (the inner loop of Radial Shot,
main.go:889-904, and of `ShootBullet`): scan for the first inactive slot
and overwrite it; a full pool drops the bullet. -/
def claimBulletSlot (b : BulletE) : List BulletE → List BulletE
  | [] => []
  | x :: xs => if x.active then x :: claimBulletSlot b xs else b :: xs

/-- The bullet fired by Radial Shot for direction `dir` (a unit vector; the
oracle image of `(cos rad, sin rad)`): speed 35, the caster's base damage
and identity (main.go:891-901). -/
def mkRadialBullet (player : PlayerE) (dir : Vec2) : BulletE :=
  { position := player.position,
    velocity := ⟨dir.x * 35, dir.z * 35⟩,
    active := true, damage := player.stats.damage, playerId := player.id }

/-- The Radial Shot loop (main.go:886-905): one bullet per 30 degrees of a
full circle (angles 0,30,...,330), each claiming the first free bullet
slot.  `dirOfDeg a` is the oracle for `(cos(a·π/180), sin(a·π/180))`. -/
def radialShot (dirOfDeg : ℚ → Vec2) (player : PlayerE) (g : Game) : Game :=
  let step := fun (bs : List BulletE) (k : Nat) =>
    claimBulletSlot (mkRadialBullet player (dirOfDeg (30 * k))) bs
  { g with bullets := (List.range 12).foldl step g.bullets }

/-- The activation epilogue of `UseSkill` applied inside the game record:
the caster's slot `skillIndex` gets `ready = false, cooldown = maxCooldown`
(main.go:915-916). -/
def setSkillUsed (g : Game) (pIdx skillIndex : Nat) : Game :=
  match g.players[pIdx]? with
  | none => g
  | some p =>
    match p.skills[skillIndex]? with
    | none => g
    | some s =>
      { g with players :=
          g.players.set pIdx { p with skills := p.skills.set skillIndex (skillActivate s) } }

/-- `UseSkill` (main.go:856-917).  The first statement indexes
`player.skills[skillIndex]` with no range guard, so an out-of-range index
is a runtime index-out-of-range panic — embedded as `none`.  In range:
a not-ready skill returns with no change; a ready skill runs its effect
(0 = Explosion, 1 = Radial Shot, 2 = Energy Shield heal capped at max
health; any other in-range index falls through the `switch` with no
effect) and then clears `ready` and resets the cooldown. -/
def UseSkill (hz : Nat → Vec2) (dirOfDeg : ℚ → Vec2) (g : Game)
    (pIdx skillIndex : Nat) : Option Game :=
  match g.players[pIdx]? with
  | none => none
  | some player =>
    match player.skills[skillIndex]? with
    | none => none
    | some sk =>
      if !sk.ready then some g
      else
        let g1 :=
          if skillIndex = 0 then
            (List.range g.enemies.length).foldl (explosionStep hz player) g
          else if skillIndex = 1 then radialShot dirOfDeg player g
          else if skillIndex = 2 then
            { g with players := g.players.set pIdx (healCap player) }
          else g
        some (setSkillUsed g1 pIdx skillIndex)

/-! ### Concrete instances for counterexamples and witnesses -/

/-- Trivial hazard-placement stream (never consulted by the facts proved
about it). -/
def hz0 : Nat → Vec2 := fun _ => ⟨0, 0⟩

/-- Trivial direction oracle. -/
def dir0 : ℚ → Vec2 := fun _ => ⟨1, 0⟩

/-- Trivial square-root oracle. -/
def sq0 : ℚ → ℚ := fun _ => 1

/-- A game state as left by `StartGame(false)` + `ResetGame` at Normal
difficulty (main.go:482-571), with empty entity pools. -/
def baseGame : Game :=
  { state := .StatePlaying, players := [createPlayer 0 ⟨0, 0⟩],
    enemies := [], bullets := [], obstacles := [],
    score := 0, highScore := 0, level := 1, spawnTimer := 0,
    spawnInterval := 3/2, enemiesKilled := 0, gameTime := 0,
    bossActive := false, bossSpawned := false, coopMode := false,
    currentStage := .StageBasic }

/-- An active non-boss enemy away from the player. -/
def enemyFar : EnemyE :=
  { position := ⟨5, 5⟩, velocity := ⟨0, 0⟩, active := true, health := 1,
    maxHealth := 1, size := 1, isBoss := false }

/-- An active non-boss enemy at the origin (in contact with a player at the
origin). -/
def enemyAt0 : EnemyE :=
  { position := ⟨0, 0⟩, velocity := ⟨0, 0⟩, active := true, health := 1,
    maxHealth := 1, size := 1, isBoss := false }

/-- An active boss enemy. -/
def bossEnemy : EnemyE :=
  { position := ⟨5, 5⟩, velocity := ⟨0, 0⟩, active := true, health := 100,
    maxHealth := 100, size := 4, isBoss := true }

/-- An inactive (free) enemy slot. -/
def freeSlot : EnemyE :=
  { position := ⟨0, 0⟩, velocity := ⟨0, 0⟩, active := false, health := 0,
    maxHealth := 0, size := 1, isBoss := false }

/-- C1 counterexample state: level 10 and the 20th non-boss kill imminent. -/
def gC1 : Game := { baseGame with level := 10, enemiesKilled := 19, enemies := [enemyFar] }

/-- C1 witness state: level 3 and the 20th non-boss kill imminent. -/
def gC1w : Game := { baseGame with level := 3, enemiesKilled := 19, enemies := [enemyFar] }

/-- C3 counterexample state: a player at 10 health in contact with a
non-boss enemy. -/
def gC3 : Game :=
  { baseGame with players := [{ createPlayer 0 ⟨0, 0⟩ with health := 10 }],
                  enemies := [enemyAt0] }

/-- C3 witness state: a full-health player in contact with a non-boss
enemy. -/
def gC3w : Game :=
  { baseGame with players := [createPlayer 0 ⟨0, 0⟩], enemies := [enemyAt0] }

/-- A wall obstacle centered at (27, 0), 4×4 in the ground plane. -/
def wallC4 : Obstacle :=
  { position := ⟨27, 0⟩, sizeX := 4, sizeZ := 4, active := true, obsType := 0 }

/-- C4 state: two free enemy slots and a wall near the first candidate. -/
def gC4 : Game := { baseGame with enemies := [freeSlot, freeSlot], obstacles := [wallC4] }

/-- C4 counterexample draw stream: the first candidate lands on the wall,
the second does not. -/
def drawsC4 : Nat → SpawnDraw := fun k =>
  match k with
  | 0 => { pos := ⟨27, 0⟩, targetIdx := 0, speed := 1, size := 1 }
  | _ => { pos := ⟨-27, 0⟩, targetIdx := 0, speed := 1, size := 1 }

/-- C4 witness draw stream: every candidate lands on the wall. -/
def drawsC4w : Nat → SpawnDraw := fun _ =>
  { pos := ⟨27, 0⟩, targetIdx := 0, speed := 1, size := 1 }

/-- C5 witness state: a player whose first skill is on cooldown. -/
def gC5nr : Game :=
  { baseGame with players :=
      [{ createPlayer 0 ⟨0, 0⟩ with skills :=
          [{ name := "Explosion", cooldown := 5, maxCooldown := 8, ready := false },
           { name := "Radial Shot", cooldown := 0, maxCooldown := 10, ready := true },
           { name := "Energy Shield", cooldown := 0, maxCooldown := 15, ready := true }] }] }

/-- C6 witness state: a level-5 boss about to be killed. -/
def gC6w : Game := { baseGame with level := 5, enemies := [bossEnemy], score := 100 }

/-- C7 witness state: a 5-health player in contact with a non-boss enemy,
current score 100 above the high score 50. -/
def gC7w : Game :=
  { baseGame with players := [{ createPlayer 0 ⟨0, 0⟩ with health := 5 }],
                  enemies := [enemyAt0], score := 100, highScore := 50 }

/-- C10 witness state: a boss is active while the spawn timer has already
exceeded the spawn interval. -/
def gC10 : Game :=
  { baseGame with bossActive := true, spawnTimer := 10, spawnInterval := 1/2,
                  enemies := [freeSlot] }

/-! ### Theorems -/

/-- C9: the stage archetype is a pure function of the level,
`archetype(level) = StageType(((level-1)/stageInterval) % 4)` — exactly what
`GenerateStage` computes — and it is periodic with period
`4 * stageInterval`: `archetype(level + 4*stageInterval) = archetype(level)`
for every `level ≥ 1`. -/
theorem C9_stage_archetype_pure_periodic (level : Nat) (hlv : 1 ≤ level)
    (hz : Nat → Vec2) (g : Game) :
    (GenerateStage hz g).currentStage = stageTypeOfLevel g.level ∧
    stageTypeOfLevel level = stageTypeOfNat ((level - 1) / stageInterval % 4) ∧
    stageTypeOfLevel (level + 4 * stageInterval) = stageTypeOfLevel level := by
  refine ⟨rfl, rfl, ?_⟩
  unfold stageTypeOfLevel stageInterval
  congr 1
  have h1 : level + 4 * 10 - 1 = (level - 1) + 4 * 10 := by omega
  rw [h1, Nat.add_mul_div_right _ _ (by norm_num), Nat.add_mod_right]

/-- Witness for C9 at `level = 7`. -/
theorem C9_stage_archetype_pure_periodic_witness :
    stageTypeOfLevel (7 + 4 * stageInterval) = stageTypeOfLevel 7 :=
  (C9_stage_archetype_pure_periodic 7 (by norm_num) hz0 baseGame).2.2

/-- C10: while the boss-active flag is set, the regular spawn controller
does nothing at all: the spawn timer does not accumulate `dt` and no enemy
is spawned, whatever `dt`, the draw stream, or the population are — the
whole game state is returned unchanged. -/
theorem C10_boss_blocks_spawn_controller (sqrtQ : ℚ → ℚ) (draws : Nat → SpawnDraw)
    (g : Game) (dt : ℚ) (h : g.bossActive = true) :
    spawnControllerStep sqrtQ draws g dt = g := by
  unfold spawnControllerStep
  simp [h]

/-- Witness for C10: a boss-active state with the timer far past the
interval and a free slot available still spawns nothing. -/
theorem C10_boss_blocks_spawn_controller_witness :
    spawnControllerStep sq0 drawsC4 gC10 100 = gC10 :=
  C10_boss_blocks_spawn_controller sq0 drawsC4 gC10 100 rfl

/-- C2 counterexample: the claim reads `CheckObstacleCollision` as an exact
circle-versus-rectangle intersection test.  The code instead tests the
axis-aligned square of half-side `radius` around `pos` against the
rectangle.  At `pos = (1.9, 1.9)`, `radius = 1`, against the active 2×2
wall at the origin, the code returns true although the circle of radius 1
misses the rectangle (nearest rectangle point `(1,1)` is at squared
distance 1.62 > 1), so the claimed equivalence fails. -/
theorem C2_counterexample :
    CheckObstacleCollision
      [{ position := ⟨0, 0⟩, sizeX := 2, sizeZ := 2, active := true, obsType := 0 }]
      ⟨19/10, 19/10⟩ 1 = true ∧
    circleRectOverlap ⟨19/10, 19/10⟩ 1
      { position := ⟨0, 0⟩, sizeX := 2, sizeZ := 2, active := true, obsType := 0 } = false := by
  constructor
  · norm_num [CheckObstacleCollision, obstacleHit]
  · norm_num [circleRectOverlap]

/-- C2 amended: `CheckObstacleCollision(pos, radius)` returns true iff some
active obstacle's ground-plane rectangle overlaps the axis-aligned square
of half-side `radius` centered at `pos` (the rectangle inflated by `radius`
on each axis, strict inequalities) — not the circle of that radius; corner
approaches within the square but outside the circle also report a
collision.  The result is independent of the obstacle kind (wall or
hazard). -/
theorem C2_amended (obstacles : List Obstacle) (pos : Vec2) (radius : ℚ)
    (f : Obstacle → Nat) :
    (CheckObstacleCollision obstacles pos radius = true ↔
      ∃ o, o ∈ obstacles ∧ o.active = true ∧ obstacleHit pos radius o = true) ∧
    CheckObstacleCollision (obstacles.map (fun o => { o with obsType := f o })) pos radius =
      CheckObstacleCollision obstacles pos radius := by
  constructor
  · induction obstacles with
    | nil => simp [CheckObstacleCollision]
    | cons o rest ih =>
      by_cases ha : o.active
      · by_cases hh : obstacleHit pos radius o
        · simp [CheckObstacleCollision, ha, hh]
        · simp [CheckObstacleCollision, ha, hh, ih]
      · simp [CheckObstacleCollision, ha, ih]
  · induction obstacles with
    | nil => simp
    | cons o rest ih =>
      by_cases ha : o.active
      · by_cases hh : obstacleHit pos radius o
        · simp [CheckObstacleCollision, obstacleHit, ha, hh, ih]
        · simp [CheckObstacleCollision, obstacleHit, ha, hh, ih]
      · simp [CheckObstacleCollision, obstacleHit, ha, ih]

/-- C8: the skill invariant `cooldown ∈ [0, maxCooldown] ∧ ready ↔ cooldown = 0`
holds for the skills built at player creation, holds after the reset of
`ResetGame` (for a non-negative configured maximum), is preserved by the
activation epilogue of `UseSkill` (for a positive configured maximum — all
three configured maxima are 8, 10, 15), and is preserved by the per-tick
cooldown update for any non-negative `dt`. -/
theorem C8_cooldown_invariant :
    (∀ s ∈ createSkills, skillInv s) ∧
    (∀ s : Skill, 0 ≤ s.maxCooldown → skillInv (resetSkill s)) ∧
    (∀ s : Skill, 0 < s.maxCooldown → skillInv (skillActivate s)) ∧
    (∀ (s : Skill) (dt : ℚ), 0 ≤ dt → skillInv s → skillInv (skillTick s dt)) := by
  refine ⟨?_, ?_, ?_, ?_⟩
  · intro s hs
    simp only [createSkills, List.mem_cons, List.not_mem_nil, or_false] at hs
    rcases hs with rfl | rfl | rfl <;> decide
  · intro s h
    exact ⟨le_refl 0, h, by simp [resetSkill]⟩
  · intro s h
    refine ⟨h.le, le_refl _, ?_⟩
    simp only [skillActivate]
    constructor
    · intro hc; cases hc
    · intro hc; exact absurd hc h.ne'
  · intro s dt hdt hinv
    obtain ⟨h1, h2, h3⟩ := hinv
    rcases hr : s.ready with _ | _
    · simp only [skillTick, hr, Bool.false_eq_true, if_false]
      split_ifs with hc
      · exact ⟨le_refl 0, le_trans h1 h2, by simp⟩
      · push_neg at hc
        refine ⟨hc.le, le_trans (sub_le_self _ hdt) h2, ?_⟩
        simp only [Bool.false_eq_true, false_iff]
        exact ne_of_gt hc
    · simp only [skillTick, hr, if_true]
      exact ⟨h1, h2, h3⟩

/-- Witness for C8: the tick-update and activation parts at concrete
skills. -/
theorem C8_cooldown_invariant_witness :
    skillInv (skillTick { name := "Explosion", cooldown := 5, maxCooldown := 8, ready := false } 2) ∧
    skillInv (skillActivate { name := "Radial Shot", cooldown := 0, maxCooldown := 10, ready := true }) :=
  ⟨C8_cooldown_invariant.2.2.2 _ 2 (by norm_num) (by decide),
   C8_cooldown_invariant.2.2.1 _ (by norm_num)⟩

/-- C6: a boss kill in `KillEnemy` deactivates the enemy, awards exactly
500 score, clears the boss-active and boss-spawned flags, increments the
level by one, regenerates the stage exactly when the new level satisfies
`level % stageInterval == 1` (otherwise stage and obstacles are untouched),
and enters the Upgrade state exactly when the new level satisfies
`level % 3 == 1 && level > 1` (otherwise the state is untouched); a
non-boss kill awards exactly `10 * level` score at the pre-kill level. -/
theorem C6_killEnemy_boss (hz : Nat → Vec2) (g : Game) (idx : Nat) (e : EnemyE)
    (he : g.enemies[idx]? = some e) :
    (e.isBoss = true →
      (KillEnemy hz g idx).enemies = g.enemies.set idx { e with active := false } ∧
      (KillEnemy hz g idx).score = g.score + 500 ∧
      (KillEnemy hz g idx).bossActive = false ∧
      (KillEnemy hz g idx).level = g.level + 1 ∧
      (KillEnemy hz g idx).bossSpawned = false ∧
      (KillEnemy hz g idx).currentStage =
        (if (g.level + 1) % stageInterval = 1 then stageTypeOfLevel (g.level + 1)
         else g.currentStage) ∧
      (KillEnemy hz g idx).obstacles =
        (if (g.level + 1) % stageInterval = 1 then
          writePool (g.obstacles.map (fun o => { o with active := false }))
            (stageObstaclesFor hz (stageTypeOfLevel (g.level + 1)))
         else g.obstacles) ∧
      (KillEnemy hz g idx).state =
        (if (g.level + 1) % 3 = 1 ∧ 1 < g.level + 1 then GameState.StateUpgrade
         else g.state)) ∧
    (e.isBoss = false → (KillEnemy hz g idx).score = g.score + 10 * g.level) := by
  constructor
  · intro hb
    simp only [KillEnemy, he, hb, Bool.not_true, Bool.false_and, Bool.and_false,
      Bool.false_eq_true, if_false, if_true]
    refine ⟨?_, ?_, ?_, ?_, ?_, ?_, ?_, ?_⟩ <;>
      split_ifs <;> simp_all [GenerateStage]
  · intro hb
    simp only [KillEnemy, he, hb, Bool.not_false, Bool.true_and, Bool.false_eq_true,
      if_false]
    split_ifs <;> simp [GenerateStage]

/-- Witness for C6: killing a level-5 boss yields score +500, level 6, both
boss flags cleared, and (6 % 3 = 0) no Upgrade state. -/
theorem C6_killEnemy_boss_witness :
    (KillEnemy hz0 gC6w 0).score = gC6w.score + 500 ∧
    (KillEnemy hz0 gC6w 0).level = gC6w.level + 1 ∧
    (KillEnemy hz0 gC6w 0).bossActive = false ∧
    (KillEnemy hz0 gC6w 0).bossSpawned = false ∧
    (KillEnemy hz0 gC6w 0).state =
      (if (gC6w.level + 1) % 3 = 1 ∧ 1 < gC6w.level + 1 then GameState.StateUpgrade
       else gC6w.state) := by
  obtain ⟨hbs, _⟩ := C6_killEnemy_boss hz0 gC6w 0 bossEnemy rfl
  obtain ⟨_, h2, h3, h4, h5, _, _, h8⟩ := hbs rfl
  exact ⟨h2, h4, h3, h5, h8⟩

/-- Contact resolution never touches the game state except to set GameOver. -/
theorem resolvePlayerContact_state_cases (sqrtQ : ℚ → ℚ) (g : Game) (eIdx pIdx : Nat) :
    (resolvePlayerContact sqrtQ g eIdx pIdx).state = g.state ∨
    (resolvePlayerContact sqrtQ g eIdx pIdx).state = GameState.StateGameOver := by
  rcases he : g.enemies[eIdx]? with _ | e
  · simp [resolvePlayerContact, he]
  · rcases hp : g.players[pIdx]? with _ | p
    · simp [resolvePlayerContact, he, hp]
    · simp only [resolvePlayerContact, he, hp]
      split_ifs <;> simp

/-- C7: when enemy-player contact damage is lethal (health reaches 0 or
below), the state transitions to GameOver, the high score becomes the score
exactly when the score exceeds it (otherwise it is unchanged), and any
further contact resolution leaves the state at GameOver (the transition
happens only once). -/
theorem C7_lethal_contact_gameover (sqrtQ : ℚ → ℚ) (g : Game) (eIdx pIdx : Nat)
    (e : EnemyE) (p : PlayerE)
    (he : g.enemies[eIdx]? = some e) (hp : g.players[pIdx]? = some p)
    (hact : e.active = true)
    (hnear : (p.position.x - e.position.x) ^ 2 + (p.position.z - e.position.z) ^ 2 <
      (if e.isBoss then (3 : ℚ) else 3/2) ^ 2)
    (hlethal : p.health - (if e.isBoss then (30 : Int) else 20) ≤ 0) :
    (resolvePlayerContact sqrtQ g eIdx pIdx).state = GameState.StateGameOver ∧
    ((resolvePlayerContact sqrtQ g eIdx pIdx).highScore =
      if g.highScore < g.score then g.score else g.highScore) ∧
    (∀ (sq2 : ℚ → ℚ) (i j : Nat),
      (resolvePlayerContact sq2 (resolvePlayerContact sqrtQ g eIdx pIdx) i j).state =
        GameState.StateGameOver) := by
  have h1 : (resolvePlayerContact sqrtQ g eIdx pIdx).state = GameState.StateGameOver ∧
      (resolvePlayerContact sqrtQ g eIdx pIdx).highScore =
        (if g.highScore < g.score then g.score else g.highScore) := by
    simp only [resolvePlayerContact, he, hp, hact, if_true, hnear, hlethal]
    exact ⟨trivial, trivial⟩
  refine ⟨h1.1, h1.2, ?_⟩
  intro sq2 i j
  rcases resolvePlayerContact_state_cases sq2 (resolvePlayerContact sqrtQ g eIdx pIdx) i j with
    h | h
  · rw [h, h1.1]
  · exact h

/-- Witness for C7: a 5-health player hit by a non-boss enemy at score 100
over high score 50. -/
theorem C7_lethal_contact_gameover_witness :
    (resolvePlayerContact sq0 gC7w 0 0).state = GameState.StateGameOver ∧
    (resolvePlayerContact sq0 gC7w 0 0).highScore = 100 := by
  obtain ⟨h1, h2, _⟩ := C7_lethal_contact_gameover sq0 gC7w 0 0 enemyAt0
    { createPlayer 0 ⟨0, 0⟩ with health := 5 } rfl rfl rfl
    (by norm_num [enemyAt0, createPlayer, basePlayerStats])
    (by norm_num [enemyAt0, createPlayer, basePlayerStats])
  refine ⟨h1, ?_⟩
  rw [h2]
  norm_num [gC7w, baseGame]

/-- C1 counterexample: at level 10 with the 20th non-boss kill arriving,
the resulting level would be 11, which is not a multiple of the stage
interval (10), so the claim requires the level to be incremented — but the
code guards on the PRE-increment level (`g.level % 10 != 0`), which is 10
here, so no increment happens and the spawn interval is untouched. -/
theorem C1_counterexample :
    gC1.level = 10 ∧ gC1.enemiesKilled = 19 ∧
    (gC1.enemies[0]?.map EnemyE.isBoss) = some false ∧
    (gC1.enemiesKilled + 1) % 20 = 0 ∧ (gC1.level + 1) % stageInterval ≠ 0 ∧
    (KillEnemy hz0 gC1 0).level = gC1.level ∧
    (KillEnemy hz0 gC1 0).spawnInterval = gC1.spawnInterval := by
  refine ⟨rfl, rfl, rfl, by decide, by decide, rfl, rfl⟩

/-- C1 amended: every 20th non-boss kill increments the level and
recomputes `spawnInterval = max(0.5, 1.5 - level*0.05)` (at the new level)
exactly when the PRE-increment level is not a multiple of 10 (the code's
guard `g.level % 10 != 0`, checked before `g.level++`); when the
pre-increment level is a multiple of 10, neither the level nor the spawn
interval changes.  (The claim instead gated on the post-increment level not
being a multiple of the stage interval.) -/
theorem C1_twenty_kills_levelup (hz : Nat → Vec2) (g : Game) (idx : Nat) (e : EnemyE)
    (he : g.enemies[idx]? = some e) (hnb : e.isBoss = false)
    (hk : (g.enemiesKilled + 1) % 20 = 0) :
    (g.level % 10 ≠ 0 →
      (KillEnemy hz g idx).level = g.level + 1 ∧
      (KillEnemy hz g idx).spawnInterval =
        max (1/2 : ℚ) (3/2 - ((g.level + 1 : Nat) : ℚ) * (1/20))) ∧
    (g.level % 10 = 0 →
      (KillEnemy hz g idx).level = g.level ∧
      (KillEnemy hz g idx).spawnInterval = g.spawnInterval) := by
  constructor
  · intro h10
    have hb10 : (g.level % 10 != 0) = true := by simpa using h10
    simp only [KillEnemy, he, hnb, Bool.not_false, Bool.true_and, Bool.false_eq_true,
      if_false, hk, beq_self_eq_true, hb10, Bool.and_self, if_true]
    split_ifs <;> simp [GenerateStage]
  · intro h10
    have hb10 : (g.level % 10 != 0) = false := by simpa using h10
    simp only [KillEnemy, he, hnb, Bool.not_false, Bool.true_and, Bool.false_eq_true,
      if_false, hk, beq_self_eq_true, hb10, Bool.and_false]
    exact ⟨trivial, trivial⟩

/-- Witness for C1 amended: at level 3, the 20th kill raises the level to 4
and sets the spawn interval to `max(0.5, 1.5 - 4*0.05)`. -/
theorem C1_twenty_kills_levelup_witness :
    (KillEnemy hz0 gC1w 0).level = gC1w.level + 1 ∧
    (KillEnemy hz0 gC1w 0).spawnInterval =
      max (1/2 : ℚ) (3/2 - ((gC1w.level + 1 : Nat) : ℚ) * (1/20)) :=
  (C1_twenty_kills_levelup hz0 gC1w 0 enemyFar rfl rfl (by decide)).1 (by decide)

/-- C3 counterexample: a player at 10 health hit by a non-boss enemy
(contact damage 20) ends the tick at health −10: the code never clamps
health to 0, so the claimed `0 ≤ health` fails after a lethal contact. -/
theorem C3_counterexample :
    (gC3.players[0]?.map PlayerE.health) = some 10 ∧
    ((resolvePlayerContact sq0 gC3 0 0).players[0]?.map PlayerE.health) = some (-10) ∧
    ¬ (0 : Int) ≤ -10 := by
  refine ⟨rfl, ?_, by decide⟩
  have he : gC3.enemies[0]? = some enemyAt0 := rfl
  have hp : gC3.players[0]? = some { createPlayer 0 ⟨0, 0⟩ with health := 10 } := rfl
  simp only [resolvePlayerContact, he, hp]
  norm_num [enemyAt0, createPlayer, basePlayerStats]
  exact ⟨_, rfl, rfl⟩

/-- C3 amended: the upper bound `health ≤ maxHealth` holds after every
health-changing operation — the capped 30-point heal (Energy Shield and
heal pickup), the max-health upgrade (which refills to the new maximum),
and contact damage (which only decreases health, by 20 or 30) — but the
lower bound does not: a lethal contact hit leaves `health < 0` (no
clamping) and transitions the state to GameOver. -/
theorem C3_health_upper_bound :
    (∀ p : PlayerE, p.health ≤ p.stats.maxHealth →
      (healCap p).health ≤ (healCap p).stats.maxHealth ∧
      (0 ≤ p.health → 0 ≤ (healCap p).health)) ∧
    (∀ p : PlayerE, 0 ≤ p.stats.maxHealth →
      (applyUpgradeStats 0 p).health = (applyUpgradeStats 0 p).stats.maxHealth ∧
      0 ≤ (applyUpgradeStats 0 p).health) ∧
    (∀ (sqrtQ : ℚ → ℚ) (g : Game) (eIdx pIdx : Nat) (e : EnemyE) (p : PlayerE),
      g.enemies[eIdx]? = some e → g.players[pIdx]? = some p →
      (resolvePlayerContact sqrtQ g eIdx pIdx).players = g.players ∨
      ∃ damage : Int, (damage = 20 ∨ damage = 30) ∧
        (resolvePlayerContact sqrtQ g eIdx pIdx).players =
          g.players.set pIdx { p with health := p.health - damage } ∧
        (p.health - damage ≤ 0 →
          (resolvePlayerContact sqrtQ g eIdx pIdx).state = GameState.StateGameOver)) := by
  refine ⟨?_, ?_, ?_⟩
  · intro p hmax
    simp only [healCap]
    refine ⟨min_le_right _ _, ?_⟩
    intro h0
    exact le_min (by linarith) (le_trans h0 hmax)
  · intro p hmax
    simp only [applyUpgradeStats]
    exact ⟨trivial, by linarith⟩
  · intro sqrtQ g eIdx pIdx e p he hp
    simp only [resolvePlayerContact, he, hp]
    split_ifs <;>
      first
        | exact Or.inl rfl
        | exact Or.inr ⟨30, Or.inr rfl, rfl, fun _ => rfl⟩
        | exact Or.inr ⟨20, Or.inl rfl, rfl, fun _ => rfl⟩
        | exact Or.inr ⟨30, Or.inr rfl, rfl, fun hcon => absurd hcon (by assumption)⟩
        | exact Or.inr ⟨20, Or.inl rfl, rfl, fun hcon => absurd hcon (by assumption)⟩

/-- Witness for C3 amended: the heal cap and the upgrade refill at the
fresh player, and contact resolution at the concrete full-health contact
state. -/
theorem C3_health_upper_bound_witness :
    ((healCap (createPlayer 0 ⟨0, 0⟩)).health ≤
      (healCap (createPlayer 0 ⟨0, 0⟩)).stats.maxHealth) ∧
    ((resolvePlayerContact sq0 gC3w 0 0).players = gC3w.players ∨
      ∃ damage : Int, (damage = 20 ∨ damage = 30) ∧
        (resolvePlayerContact sq0 gC3w 0 0).players =
          gC3w.players.set 0
            { createPlayer 0 ⟨0, 0⟩ with health := (createPlayer 0 ⟨0, 0⟩).health - damage } ∧
        ((createPlayer 0 ⟨0, 0⟩).health - damage ≤ 0 →
          (resolvePlayerContact sq0 gC3w 0 0).state = GameState.StateGameOver)) :=
  ⟨(C3_health_upper_bound.1 (createPlayer 0 ⟨0, 0⟩) (by decide)).1,
   C3_health_upper_bound.2.2 sq0 gC3w 0 0 enemyAt0 (createPlayer 0 ⟨0, 0⟩) rfl rfl⟩

/-- C5 counterexample: `UseSkill` with skill index 3 (outside the three
fixed slots) is not a guarded no-op: the very first statement indexes
`player.skills[3]` and panics (modelled as `none`), rather than returning
the state unchanged. -/
theorem C5_counterexample :
    UseSkill hz0 dir0 baseGame 0 3 = none ∧
    UseSkill hz0 dir0 baseGame 0 3 ≠ some baseGame := by
  have h : UseSkill hz0 dir0 baseGame 0 3 = none := rfl
  exact ⟨h, by simp [h]⟩

/-- C5 amended: `UseSkill` has no range guard.  For an index within the
player's skill list, a not-ready skill makes the call a no-op (the state is
returned unchanged); for an index at or beyond the list length, the
indexing itself faults (index-out-of-range panic, modelled as `none`). -/
theorem C5_useSkill_range (hz : Nat → Vec2) (dirOfDeg : ℚ → Vec2) (g : Game)
    (pIdx k : Nat) (p : PlayerE) (hp : g.players[pIdx]? = some p) :
    (∀ sk : Skill, p.skills[k]? = some sk → sk.ready = false →
      UseSkill hz dirOfDeg g pIdx k = some g) ∧
    (p.skills.length ≤ k → UseSkill hz dirOfDeg g pIdx k = none) := by
  constructor
  · intro sk hsk hr
    simp only [UseSkill, hp, hsk, hr, Bool.not_false, if_true]
  · intro hlen
    have hnone : p.skills[k]? = none := by
      rw [List.getElem?_eq_none hlen]
    simp only [UseSkill, hp, hnone]

/-- Witness for C5 amended: a not-ready first skill is a no-op; index 5 on
the three-slot skill list faults. -/
theorem C5_useSkill_range_witness :
    UseSkill hz0 dir0 gC5nr 0 0 = some gC5nr ∧
    UseSkill hz0 dir0 baseGame 0 5 = none := by
  constructor
  · exact (C5_useSkill_range hz0 dir0 gC5nr 0 0 _ rfl).1 _ rfl rfl
  · exact (C5_useSkill_range hz0 dir0 baseGame 0 5 _ rfl).2 (by decide)

theorem countInactive_cons_active {e : EnemyE} (h : e.active = true) (es : List EnemyE) :
    countInactive (e :: es) = countInactive es := by
  simp [countInactive, List.filter_cons, h]

theorem countInactive_cons_inactive {e : EnemyE} (h : e.active = false) (es : List EnemyE) :
    countInactive (e :: es) = countInactive es + 1 := by
  simp [countInactive, List.filter_cons, h]

theorem countActive_cons_active {e : EnemyE} (h : e.active = true) (es : List EnemyE) :
    countActive (e :: es) = countActive es + 1 := by
  simp [countActive, List.filter_cons, h]

theorem countActive_cons_inactive {e : EnemyE} (h : e.active = false) (es : List EnemyE) :
    countActive (e :: es) = countActive es := by
  simp [countActive, List.filter_cons, h]

/-- Behaviour of the `SpawnEnemy` slot loop: the spawn is abandoned (pool
returned unchanged) exactly when every consumed candidate draw collides
with an obstacle; as soon as some free slot's draw is obstacle-free, one
enemy is spawned (the active count rises by one). -/
theorem spawnEnemyGo_spec (sqrtQ : ℚ → ℚ) (obstacles : List Obstacle)
    (players : List PlayerE) (level : Nat) (draws : Nat → SpawnDraw) :
    ∀ (es : List EnemyE) (k : Nat),
      ((∀ j, j < countInactive es →
          CheckObstacleCollision obstacles (draws (k + j)).pos 1 = true) →
        spawnEnemyGo sqrtQ obstacles players level draws es k = es) ∧
      ((∃ j, j < countInactive es ∧
          CheckObstacleCollision obstacles (draws (k + j)).pos 1 = false) →
        countActive (spawnEnemyGo sqrtQ obstacles players level draws es k) =
          countActive es + 1) := by
  intro es
  induction es with
  | nil =>
    intro k
    refine ⟨fun _ => rfl, ?_⟩
    rintro ⟨j, hj, _⟩
    simp [countInactive] at hj
  | cons e rest ih =>
    intro k
    rcases ha : e.active with _ | _
    · -- inactive slot: a draw is consumed here
      by_cases h0 : CheckObstacleCollision obstacles (draws k).pos 1 = true
      · -- the draw collides: continue with the next slot
        have heq : spawnEnemyGo sqrtQ obstacles players level draws (e :: rest) k =
            e :: spawnEnemyGo sqrtQ obstacles players level draws rest (k + 1) := by
          simp [spawnEnemyGo, ha, h0]
        constructor
        · intro hall
          rw [heq]
          congr 1
          apply (ih (k + 1)).1
          intro j hj
          have h2 := hall (j + 1) (by rw [countInactive_cons_inactive ha]; omega)
          have hidx : k + (j + 1) = k + 1 + j := by omega
          rwa [hidx] at h2
        · rintro ⟨j, hj, hmiss⟩
          rw [heq, countActive_cons_inactive ha, countActive_cons_inactive ha]
          apply (ih (k + 1)).2
          rcases j with _ | j'
          · exact absurd hmiss (by simp [h0])
          · refine ⟨j', ?_, ?_⟩
            · rw [countInactive_cons_inactive ha] at hj; omega
            · have hidx : k + 1 + j' = k + (j' + 1) := by omega
              rw [hidx]; exact hmiss
      · -- the draw misses every obstacle: this slot is filled
        have h0' : CheckObstacleCollision obstacles (draws k).pos 1 = false := by
          simp only [Bool.not_eq_true] at h0; exact h0
        have heq : spawnEnemyGo sqrtQ obstacles players level draws (e :: rest) k =
            mkSpawnedEnemy sqrtQ players level (draws k) :: rest := by
          simp [spawnEnemyGo, ha, h0']
        constructor
        · intro hall
          have h2 := hall 0 (by rw [countInactive_cons_inactive ha]; omega)
          rw [Nat.add_zero] at h2
          exact absurd h2 (by simp [h0'])
        · intro _
          rw [heq, countActive_cons_active rfl, countActive_cons_inactive ha]
    · -- active slot: no draw is consumed
      have heq : spawnEnemyGo sqrtQ obstacles players level draws (e :: rest) k =
          e :: spawnEnemyGo sqrtQ obstacles players level draws rest k := by
        simp [spawnEnemyGo, ha]
      constructor
      · intro hall
        rw [heq]
        congr 1
        apply (ih k).1
        intro j hj
        exact hall j (by rw [countInactive_cons_active ha]; exact hj)
      · rintro ⟨j, hj, hmiss⟩
        rw [heq, countActive_cons_active ha, countActive_cons_active ha]
        have h2 := (ih k).2 ⟨j, by rwa [countInactive_cons_active ha] at hj, hmiss⟩
        omega

/-- C4 counterexample: two free slots behind a wall near the first
candidate.  The first candidate position overlaps the wall, yet an enemy IS
spawned this tick: the loop `continue`s to the second free slot and draws a
fresh candidate there, contradicting the claim that the attempt is not
retried. -/
theorem C4_counterexample :
    CheckObstacleCollision gC4.obstacles (drawsC4 0).pos 1 = true ∧
    countActive (SpawnEnemy sq0 drawsC4 gC4).enemies = countActive gC4.enemies + 1 := by
  have h1 : CheckObstacleCollision [wallC4] ⟨27, 0⟩ 1 = true := by
    norm_num [CheckObstacleCollision, obstacleHit, wallC4]
  have h2 : CheckObstacleCollision [wallC4] ⟨-27, 0⟩ 1 = false := by
    norm_num [CheckObstacleCollision, obstacleHit, wallC4]
  constructor
  · exact h1
  · have hgo : (SpawnEnemy sq0 drawsC4 gC4).enemies =
        [freeSlot, mkSpawnedEnemy sq0 gC4.players gC4.level (drawsC4 1)] := by
      show spawnEnemyGo sq0 [wallC4] gC4.players gC4.level drawsC4 [freeSlot, freeSlot] 0 = _
      simp [spawnEnemyGo, freeSlot, drawsC4, h1, h2]
    rw [hgo]
    show countActive [freeSlot, mkSpawnedEnemy sq0 gC4.players gC4.level (drawsC4 1)] =
      countActive [freeSlot, freeSlot] + 1
    simp [countActive, List.filter, freeSlot, mkSpawnedEnemy]

/-- C4 amended: when the candidate for a free slot overlaps an obstacle
(test radius 1.0), `SpawnEnemy` does not give up for the tick: it continues
to the next free slot with a fresh candidate.  No enemy is spawned only
when every free slot's candidate collides; as soon as any free slot's
candidate is obstacle-free, exactly one enemy is spawned. -/
theorem C4_spawn_retry (sqrtQ : ℚ → ℚ) (draws : Nat → SpawnDraw) (g : Game) :
    ((∀ j, j < countInactive g.enemies →
        CheckObstacleCollision g.obstacles (draws j).pos 1 = true) →
      (SpawnEnemy sqrtQ draws g).enemies = g.enemies) ∧
    ((∃ j, j < countInactive g.enemies ∧
        CheckObstacleCollision g.obstacles (draws j).pos 1 = false) →
      countActive (SpawnEnemy sqrtQ draws g).enemies = countActive g.enemies + 1) := by
  have h := spawnEnemyGo_spec sqrtQ g.obstacles g.players g.level draws g.enemies 0
  constructor
  · intro hall
    exact h.1 (fun j hj => by simpa using hall j hj)
  · rintro ⟨j, hj, hmiss⟩
    exact h.2 ⟨j, hj, by simpa using hmiss⟩

/-- Witness for C4 amended: with every candidate colliding, the tick's
spawn is skipped and the pool is unchanged. -/
theorem C4_spawn_retry_witness :
    (SpawnEnemy sq0 drawsC4w gC4).enemies = gC4.enemies := by
  apply (C4_spawn_retry sq0 drawsC4w gC4).1
  intro j _
  show CheckObstacleCollision [wallC4] ⟨27, 0⟩ 1 = true
  norm_num [CheckObstacleCollision, obstacleHit, wallC4]

end Shutorary
